/-
Verification of the PLOC2D client driver (src/main.py) against its
natural-language specification.

The development shallowly embeds the session/protocol layer of the driver:
the connection lifecycle (`connect` / `disconnect`), the XML request built
by `run_job`, the parsing of the reply dictionary into a `Result`, and the
static error-code catalog.  External collaborators (the TCP socket and the
XML library) are modelled as oracles/abstract values, exactly as the spec
declares them out of scope: the socket's behaviour (send failure, receive
timeout, close failure, the bytes delivered) is passed in as parameters,
and `xml.etree.ElementTree.fromstring` is modelled as a function on an
abstract byte-string type that records whether the content parses into a
flat tag→text envelope.
-/
import Mathlib

namespace PLOC2D

/-! ## Session state

`PLOC2DSession.__init__` (src/main.py:115-127) stores the address, timeout,
encoding, buffer size and a connection handle that is `None` until
`connect()` is called.  A live socket object is modelled by a `Nat` handle
identity so that "creates no new connection object" is expressible. -/

structure Session where
  ip_address : String
  port : Nat := 14158
  timeout : Rat := 3
  encoding : String := "ascii"
  buffer : Nat := 1024
  connection : Option Nat := none
  deriving Repr, DecidableEq

/-- The value a Python method returns: either the session object itself
(`return self`) or `None` (a bare `return`). -/
inductive PyRet
  | selfRef
  | pyNone
  deriving Repr, DecidableEq

/-- Outcome of `connect()`: either an exception propagates out of
`socket.connect` (the session keeps the freshly created, unconnected
socket object that was already assigned to `self._connection`), or the
method returns normally with a value. -/
inductive ConnectOutcome
  | raised (s : Session)
  | returned (s : Session) (ret : PyRet)
  deriving Repr, DecidableEq

/-- Model of `PLOC2DSession.connect` (src/main.py:129-135).

```python
def connect(self):
    if self._connection is not None:
        return
    self._connection = socket.socket()
    self._connection.settimeout(self._timeout)
    self._connection.connect(self._address)
    return self
```

`fresh` is the identity of the socket object `socket.socket()` would
create; `connectSucceeds` is the oracle for whether the TCP handshake to
the configured address succeeds (it raises otherwise). -/
def connect (s : Session) (fresh : Nat) (connectSucceeds : Bool) : ConnectOutcome :=
  if s.connection.isSome then
    ConnectOutcome.returned s PyRet.pyNone
  else
    let s' := { s with connection := some fresh }
    if connectSucceeds then ConnectOutcome.returned s' PyRet.selfRef
    else ConnectOutcome.raised s'

/-- Outcome of `disconnect()`: normal return, or an exception from the
underlying `close()` propagating (there is no try/except in the method). -/
inductive DisconnectOutcome
  | raised (s : Session)
  | returned (s : Session)
  deriving Repr, DecidableEq

/-- Model of `PLOC2DSession.disconnect` (src/main.py:137-141).

```python
def disconnect(self):
    if self._connection is None:
        return
    self._connection.close()
    self._connection = None
```

`closeFails` is the oracle for whether `socket.close()` raises `OSError`;
when it does, the exception propagates and the assignment
`self._connection = None` is never executed. -/
def disconnect (s : Session) (closeFails : Bool) : DisconnectOutcome :=
  match s.connection with
  | none => DisconnectOutcome.returned s
  | some _ =>
      if closeFails then DisconnectOutcome.raised s
      else DisconnectOutcome.returned { s with connection := none }

/-! ## Error catalog -/

/-- The dictionary `PLOC2D.ERROR_CODES` (src/main.py:60-72), verbatim. -/
def ERROR_CODES : List (String × String) :=
  [("9100", "The image acquisition failed."),
   ("9101", "The image could not be stored to the SD-card."),
   ("9200", "No valid image found."),
   ("9210", "PLOC2D not callibrated."),
   ("9202", "PLOC2D not aligned."),
   ("9203", "Job not valid."),
   ("9400", "Alignment failed."),
   ("9401", "Alignment target not found."),
   ("9600", "Locate failed."),
   ("9601", "Locate failed. Score too low."),
   ("9999", "An unknown error occured.")]

/-- Model of `PLOC2D.ERROR_CODES.get(error_code, "")` (src/main.py:177):
the key is either `None` (the `error` tag was absent or empty) or the raw
code string; any key not in the dictionary yields the default `""`. -/
def errorLookup (code : Option String) : String :=
  match code with
  | none => ""
  | some c => (ERROR_CODES.lookup c).getD ""

/-! ## Request serialization

`run_job` (src/main.py:145-156) builds an `ElementTree` element `message`
with sub-elements `name`, `job` and (only when `match_id is not None`)
`match`, in that order, and serializes it with `ET.tostring`.  With its
default arguments `ET.tostring` emits no XML declaration and renders a
flat element with non-empty child texts as
`<root><tag>text</tag>...</root>`; the texts here ("Run.Locate" and
`str(int)`) contain none of `& < >`, so escaping is the identity. -/

/-- The ordered (tag, text) children of the request envelope. -/
def requestFields (job_id : Int) (match_id : Option Int) : List (String × String) :=
  [("name", "Run.Locate"), ("job", toString job_id)] ++
    (match match_id with
     | some m => [("match", toString m)]
     | none => [])

/-- Serialization of a list of flat child elements with non-empty texts,
as `ET.tostring` renders them. -/
def serializeChildren : List (String × String) → String
  | [] => ""
  | (tag, text) :: rest =>
      "<" ++ tag ++ ">" ++ text ++ "</" ++ tag ++ ">" ++ serializeChildren rest

/-- Rendering by `ET.tostring` of a root element with no text of its own
and the given flat children. -/
def tostring (root : String) (children : List (String × String)) : String :=
  "<" ++ root ++ ">" ++ serializeChildren children ++ "</" ++ root ++ ">"

/-- The request `run_job` serializes and sends (src/main.py:145-156). -/
def buildRequest (job_id : Int) (match_id : Option Int) : String :=
  tostring "message" (requestFields job_id match_id)

/-- Substring test: does `pat` occur as a contiguous run of characters in
`l`?  Used to state that the serialized request for a call without a match
id contains no `<match>` tag anywhere. -/
def containsSub (pat : List Char) : List Char → Bool
  | [] => pat.isEmpty
  | c :: cs => pat.isPrefixOf (c :: cs) || containsSub pat cs

/-! ## Python value conversions

The reply dictionary `{child.tag: child.text for child in parent}`
(src/main.py:170) maps tag strings to `Optional[str]` texts (`None` for an
empty element).  `data.get(k, default)` then produces either that text or
the supplied default (an `int` or `float` literal in the code), and
`int(...)` / `float(...)` convert the result.  Python floats are modelled
as exact rationals: every claim below compares a stored field against the
output of the very same conversion function, so the model never depends on
IEEE rounding. -/

/-- A Python value as it flows out of `data.get(...)`. -/
inductive PyVal
  | pyNone
  | str (s : String)
  | int (n : Int)
  | float (q : Rat)
  deriving Repr, DecidableEq

/-- The exceptions the modelled code paths can raise. -/
inductive RunError
  /-- Exception raised by `socket.send` (OSError / socket.timeout). -/
  | sendError
  /-- Exception raised by `socket.recv` (`socket.timeout`). -/
  | timeoutError
  /-- Exception `ParseError` raised by `ET.fromstring`. -/
  | parseError
  /-- Exception `ValueError` raised by `int(...)` / `float(...)` on a malformed string. -/
  | valueError
  /-- Exception `TypeError` raised by `int(...)` / `float(...)` on `None`. -/
  | typeError
  deriving Repr, DecidableEq

/-- Value of a decimal digit list, most significant first (0 when empty). -/
def digitsToNat (l : List Char) : Nat :=
  l.foldl (fun a c => a * 10 + (c.toNat - 48)) 0

/-- Model of Python `int(s)` restricted to plain decimal literals with an
optional leading sign: `none` models a raised `ValueError`.  (Surrounding
whitespace and underscore separators, which Python also accepts, are not
exercised by any claim.) -/
def strToInt (s : String) : Option Int :=
  let core : List Char → Option Int := fun l =>
    if l ≠ [] ∧ l.all Char.isDigit then some (digitsToNat l : Int) else none
  match s.data with
  | [] => none
  | c :: rest =>
      if c = '-' then (core rest).map Int.neg
      else if c = '+' then core rest
      else core (c :: rest)

/-- Model of Python `float(s)` restricted to plain decimal literals
`[sign] digits [. digits]` (at least one digit), evaluated exactly as a
rational: `none` models a raised `ValueError`.  (Exponent notation and
`inf`/`nan`, which Python also accepts, are not exercised by any claim.) -/
def strToRat (s : String) : Option Rat :=
  let signed : Int × List Char :=
    match s.data with
    | [] => (1, [])
    | c :: rest =>
        if c = '-' then (-1, rest)
        else if c = '+' then (1, rest)
        else (1, c :: rest)
  let sign := signed.1
  let l := signed.2
  let ip := l.takeWhile (fun c => c ≠ '.')
  let rest := l.dropWhile (fun c => c ≠ '.')
  let fracOk : List Char → Option Rat := fun fp =>
    if (ip ≠ [] ∨ fp ≠ []) ∧ ip.all Char.isDigit ∧ fp.all Char.isDigit then
      some (mkRat (sign * (digitsToNat ip * 10 ^ fp.length + digitsToNat fp))
        (10 ^ fp.length))
    else none
  match rest with
  | [] => fracOk []
  | _ :: fp => fracOk fp

/-- Python `int(v)` for the values `data.get` can produce here.  `int` of a
float truncates toward zero; that branch is unreachable in `run_job`
(every `int(...)` call uses the default `0`). -/
def pyInt (v : PyVal) : Except RunError Int :=
  match v with
  | PyVal.pyNone => Except.error RunError.typeError
  | PyVal.str s =>
      match strToInt s with
      | some n => Except.ok n
      | none => Except.error RunError.valueError
  | PyVal.int n => Except.ok n
  | PyVal.float q => Except.ok (if q < 0 then ⌈q⌉ else ⌊q⌋)

/-- Python `float(v)` for the values `data.get` can produce here. -/
def pyFloat (v : PyVal) : Except RunError Rat :=
  match v with
  | PyVal.pyNone => Except.error RunError.typeError
  | PyVal.str s =>
      match strToRat s with
      | some q => Except.ok q
      | none => Except.error RunError.valueError
  | PyVal.int n => Except.ok (n : Rat)
  | PyVal.float q => Except.ok q

/-! ## Reply parsing and `run_job` -/

/-- The reply dictionary: tag → `Optional[str]` text, in insertion order. -/
abbrev Dict := List (String × Option String)

/-- Model of `data.get(k, default)` (Python dict semantics: on duplicate tags the
comprehension keeps the last occurrence, hence the reversed lookup). -/
def pyGet (d : Dict) (k : String) (dflt : PyVal) : PyVal :=
  match d.reverse.lookup k with
  | some (some s) => PyVal.str s
  | some none => PyVal.pyNone
  | none => dflt

/-- Model of `data.get(k, None)`, collapsed to the `Optional[str]` it produces. -/
def pyGetOpt (d : Dict) (k : String) : Option String :=
  match d.reverse.lookup k with
  | some (some s) => some s
  | _ => none

/-- A byte string delivered by `socket.recv`, abstracted by what the XML
library does with it: `wellFormed fields` is content `ET.fromstring`
parses into a flat envelope with the given children; `malformed raw` is
content on which it raises `ParseError` — in particular the empty byte
string `b""` (an empty document has no element). -/
inductive Bytes
  | wellFormed (fields : Dict)
  | malformed (raw : String)
  deriving Repr, DecidableEq

/-- Model of `ET.fromstring` followed by the dict comprehension
(src/main.py:169-170). -/
def fromstring (b : Bytes) : Except RunError Dict :=
  match b with
  | Bytes.wellFormed fields => Except.ok fields
  | Bytes.malformed _ => Except.error RunError.parseError

/-- The `Result` object (src/main.py:15-56) as `run_job` actually
populates it: `result_type` and `error_code` hold what `data.get(_, None)`
returned (an optional raw string), the fields converted with `int(...)`
are integers, and the fields converted with `float(...)` — including
`score` (src/main.py:188) — are floats, modelled as exact rationals.
`timestamp` is `datetime.fromtimestamp(result_id)`, i.e. the same instant
as `result_id`, kept here as the epoch-second value. -/
structure ResultV where
  result_id : Nat
  timestamp : Nat
  result_type : Option String
  error_code : Option String
  error_text : String
  job_id : Int
  match_id : Int
  «matches» : Int
  x : Rat
  y : Rat
  z : Rat
  r1 : Rat
  r2 : Rat
  r3 : Rat
  scale : Rat
  score : Rat
  time : Int
  exposure : Int
  identified : Int
  deriving Repr, DecidableEq

/-- The result-assembly block of `run_job` (src/main.py:172-211): each
conversion can raise, in source order. -/
def buildResult (data : Dict) (job_id : Int) (now : Nat) :
    Except RunError ResultV := do
  let result_id := now
  let timestamp := now
  let result_type := pyGetOpt data "name"
  let error_code := pyGetOpt data "error"
  let error_text := errorLookup error_code
  let match_id ← pyInt (pyGet data "match" (PyVal.int 0))
  let «matches» ← pyInt (pyGet data "matches" (PyVal.int 0))
  let x ← pyFloat (pyGet data "x" (PyVal.int 0))
  let y ← pyFloat (pyGet data "y" (PyVal.int 0))
  let z ← pyFloat (pyGet data "z" (PyVal.int 0))
  let r1 ← pyFloat (pyGet data "r1" (PyVal.int 0))
  let r2 ← pyFloat (pyGet data "r2" (PyVal.int 0))
  let r3 ← pyFloat (pyGet data "r3" (PyVal.int 0))
  let scale ← pyFloat (pyGet data "scale" (PyVal.int 0))
  let score ← pyFloat (pyGet data "score" (PyVal.float 0))
  let time ← pyInt (pyGet data "time" (PyVal.int 0))
  let exposure ← pyInt (pyGet data "exposure" (PyVal.int 0))
  let identified ← pyInt (pyGet data "identified" (PyVal.int 0))
  return { result_id := result_id, timestamp := timestamp,
           result_type := result_type, error_code := error_code,
           error_text := error_text, job_id := job_id,
           match_id := match_id, «matches» := «matches»,
           x := x, y := y, z := z, r1 := r1, r2 := r2, r3 := r3,
           scale := scale, score := score, time := time,
           exposure := exposure, identified := identified }

/-- What a `run_job` call does: raise an exception, or return a value
(`None` or a `Result`). -/
inductive RunOutcome
  | raised (e : RunError)
  | ret (r : Option ResultV)
  deriving Repr, DecidableEq

/-- Model of `PLOC2DSession.run_job` (src/main.py:143-211) together with
its helpers `_send` and `_recv` (src/main.py:213-221).

When `self._connection is None`, `_send` returns silently without sending
and `_recv` returns `None`, so the `response is None` check fires and the
method returns `None`.  When connected, the socket oracles apply:
`sendFails` (exception out of `socket.send`), `recvTimesOut` (exception
out of `socket.recv`), and otherwise `wire` is the byte string `recv`
delivered — note that empty bytes are *not* `None` and flow into
`ET.fromstring`.  `now` is `int(time.time())`.  The returned `Session` is
the state of `self` after the call. -/
def run_job (s : Session) (job_id : Int) (match_id : Option Int)
    (sendFails recvTimesOut : Bool) (wire : Bytes) (now : Nat) :
    Session × RunOutcome :=
  let _command := buildRequest job_id match_id
  if s.connection = none then
    (s, RunOutcome.ret none)
  else if sendFails then
    (s, RunOutcome.raised RunError.sendError)
  else if recvTimesOut then
    (s, RunOutcome.raised RunError.timeoutError)
  else
    match fromstring wire with
    | Except.error e => (s, RunOutcome.raised e)
    | Except.ok data =>
        match buildResult data job_id now with
        | Except.error e => (s, RunOutcome.raised e)
        | Except.ok r => (s, RunOutcome.ret (some r))

/-! ## Character-level facts about decimal renderings

The serialized request interleaves constant XML markup with `str(job_id)`
and `str(match_id)`.  The decimal rendering of an integer consists of
digit characters and a possible leading minus sign, so it never contains
`<`; this is what makes "no `<match>` tag appears" provable for every job
id at once. -/

theorem digitChar_ne_lt (n : Nat) : Nat.digitChar n ≠ '<' := by
  rcases Nat.lt_or_ge n 16 with h16 | h16
  · interval_cases n <;> decide
  · have hs : ¬ n = 0 ∧ ¬ n = 1 ∧ ¬ n = 2 ∧ ¬ n = 3 ∧ ¬ n = 4 ∧ ¬ n = 5
        ∧ ¬ n = 6 ∧ ¬ n = 7 ∧ ¬ n = 8 ∧ ¬ n = 9 ∧ ¬ n = 10 ∧ ¬ n = 11
        ∧ ¬ n = 12 ∧ ¬ n = 13 ∧ ¬ n = 14 ∧ ¬ n = 15 := by omega
    obtain ⟨h0, h1, h2, h3, h4, h5, h6, h7, h8, h9, h10, h11, h12, h13, h14, h15⟩ := hs
    simp [Nat.digitChar, h0, h1, h2, h3, h4, h5, h6, h7, h8, h9, h10, h11, h12,
      h13, h14, h15]

theorem toDigitsCore_ne_lt (b fuel n : Nat) (ds : List Char)
    (h : ∀ c ∈ ds, c ≠ '<') :
    ∀ c ∈ Nat.toDigitsCore b fuel n ds, c ≠ '<' := by
  induction fuel generalizing n ds with
  | zero => simpa [Nat.toDigitsCore] using h
  | succ fuel ih =>
      simp only [Nat.toDigitsCore]
      split
      · intro c hc
        rcases List.mem_cons.mp hc with h1 | h1
        · subst h1; exact digitChar_ne_lt _
        · exact h _ h1
      · exact ih _ _ (by
          intro c hc
          rcases List.mem_cons.mp hc with h1 | h1
          · subst h1; exact digitChar_ne_lt _
          · exact h _ h1)

theorem natRepr_ne_lt (n : Nat) : ∀ c ∈ (Nat.repr n).data, c ≠ '<' := by
  intro c hc
  exact toDigitsCore_ne_lt 10 (n + 1) n [] (by simp)
    c (by simpa [Nat.repr, Nat.toDigits, List.asString] using hc)

theorem intToString_ne_lt (j : Int) : ∀ c ∈ (toString j).data, c ≠ '<' := by
  cases j with
  | ofNat m => exact natRepr_ne_lt m
  | negSucc m =>
      intro c hc
      have hdata : (toString (Int.negSucc m)).data = '-' :: (Nat.repr (m + 1)).data := rfl
      rw [hdata] at hc
      rcases List.mem_cons.mp hc with h1 | h1
      · subst h1; decide
      · exact natRepr_ne_lt (m + 1) c h1

/-! ## Substring lemmas for the serialized request -/

theorem isPrefixOf_append_false (pat : List Char) :
    ∀ (S rest : List Char), S.take pat.length ≠ pat.take S.length →
      pat.isPrefixOf (S ++ rest) = false := by
  induction pat with
  | nil => intro S rest h; exact absurd (by simp) h
  | cons p ps ih =>
      intro S rest h
      cases S with
      | nil => exact absurd (by simp) h
      | cons a as =>
          by_cases hpa : p = a
          · subst hpa
            have h' : as.take ps.length ≠ ps.take as.length := by
              intro hEq
              exact h (by simp [List.length_cons, List.take_succ_cons, hEq])
            simpa [List.isPrefixOf] using ih as rest h'
          · simp [List.isPrefixOf, beq_iff_eq, hpa]

theorem containsSub_append_left (pat : List Char) :
    ∀ (A rest : List Char),
      (∀ S ∈ A.tails, S ≠ [] → S.take pat.length ≠ pat.take S.length) →
      containsSub pat (A ++ rest) = containsSub pat rest := by
  intro A
  induction A with
  | nil => intro rest _; rfl
  | cons c cs ih =>
      intro rest hA
      have h1 : (c :: cs).take pat.length ≠ pat.take (c :: cs).length :=
        hA (c :: cs) (by simp) (by simp)
      have hpre : pat.isPrefixOf (c :: (cs ++ rest)) = false :=
        isPrefixOf_append_false pat (c :: cs) rest h1
      have hrest : containsSub pat (cs ++ rest) = containsSub pat rest :=
        ih rest (by
          intro S hS hne
          exact hA S ((List.mem_tails S (c :: cs)).mpr
            (((List.mem_tails S cs).mp hS).trans (List.suffix_cons c cs))) hne)
      calc containsSub pat ((c :: cs) ++ rest)
          = (pat.isPrefixOf (c :: (cs ++ rest)) || containsSub pat (cs ++ rest)) := rfl
        _ = containsSub pat rest := by rw [hpre, hrest, Bool.false_or]

theorem containsSub_skip (pat' : List Char) :
    ∀ (D B : List Char), (∀ c ∈ D, c ≠ '<') →
      containsSub ('<' :: pat') (D ++ B) = containsSub ('<' :: pat') B := by
  intro D
  induction D with
  | nil => intro B _; rfl
  | cons c cs ih =>
      intro B hD
      have hc : ('<' : Char) ≠ c := fun hEq => hD c (by simp) hEq.symm
      have hbeq : (('<' : Char) == c) = false := beq_eq_false_iff_ne.mpr hc
      have hrest : containsSub ('<' :: pat') (cs ++ B) = containsSub ('<' :: pat') B :=
        ih B (fun x hx => hD x (List.mem_cons_of_mem _ hx))
      calc containsSub ('<' :: pat') ((c :: cs) ++ B)
          = ((('<' :: pat').isPrefixOf (c :: (cs ++ B)))
              || containsSub ('<' :: pat') (cs ++ B)) := rfl
        _ = containsSub ('<' :: pat') B := by
              simp [List.isPrefixOf, hbeq, hrest]

theorem buildRequest_no_match_tag (j : Int) :
    containsSub "<match>".data (buildRequest j none).data = false := by
  have hdecomp : (buildRequest j none).data
      = "<message><name>Run.Locate</name><job>".data
          ++ ((toString j).data ++ "</job></message>".data) := by
    simp only [buildRequest, tostring, requestFields, serializeChildren,
      String.data_append, List.append_assoc]
    rfl
  rw [hdecomp]
  rw [containsSub_append_left "<match>".data
    "<message><name>Run.Locate</name><job>".data
    ((toString j).data ++ "</job></message>".data) (by decide)]
  rw [show "<match>".data = '<' :: "match>".data from rfl]
  rw [containsSub_skip "match>".data (toString j).data "</job></message>".data
    (intToString_ne_lt j)]
  decide

/-- Reduction of a successful bind in the `Except` monad, used to unfold
the conversion sequence of `buildResult`. -/
theorem bind_ok_eq {e a b : Type} (x : a) (f : a → Except e b) :
    (Except.ok x >>= f) = f x := rfl

/-! ## The claims -/

/-- C1: for every integer job id and every optional match id, the XML
request built by `run_job` is a `<message>` envelope containing exactly a
`<name>` field equal to `"Run.Locate"`, a `<job>` field equal to the
decimal rendering of the job id, and a `<match>` field equal to the
decimal rendering of the match id iff a match id was supplied; when no
match id is supplied, no `<match>` tag appears anywhere in the serialized
request. -/
theorem claim1_request_envelope (j : Int) (m : Option Int) :
    buildRequest j m
      = "<message><name>Run.Locate</name><job>" ++ toString j ++ "</job>"
          ++ (match m with
              | some mid => "<match>" ++ toString mid ++ "</match>"
              | none => "") ++ "</message>"
    ∧ containsSub "<match>".data (buildRequest j none).data = false := by
  constructor
  · cases m with
    | none =>
        apply String.ext
        simp only [buildRequest, tostring, requestFields, serializeChildren,
          String.data_append, List.append_assoc]
        rfl
    | some mid =>
        apply String.ext
        simp only [buildRequest, tostring, requestFields, serializeChildren,
          String.data_append, List.append_assoc]
        rfl
  · exact buildRequest_no_match_tag j

/-- C3 counterexample: the catalog's text for code 9601 is
`"Locate failed. Score too low."` (src/main.py:70), which is not the text
`"locate failed, score too low"` stated by the claim; the claim's quoted
texts (also `"not calibrated"` for 9210, code text
`"PLOC2D not callibrated."`) do not match the code verbatim. -/
theorem claim3_counterexample :
    errorLookup (some "9601") = "Locate failed. Score too low."
      ∧ errorLookup (some "9601") ≠ "locate failed, score too low"
      ∧ errorLookup (some "9210") = "PLOC2D not callibrated."
      ∧ errorLookup (some "9210") ≠ "not calibrated" := by
  refine ⟨rfl, by decide, rfl, by decide⟩

/-- C3 (amended): the catalog lookup returns, for each of the eleven
codes, exactly the text recorded in `PLOC2D.ERROR_CODES`, and the empty
string for an absent code (`None`) and for every string that is not one of
the eleven codes. -/
theorem claim3_catalog :
    (errorLookup (some "9100") = "The image acquisition failed."
      ∧ errorLookup (some "9101") = "The image could not be stored to the SD-card."
      ∧ errorLookup (some "9200") = "No valid image found."
      ∧ errorLookup (some "9210") = "PLOC2D not callibrated."
      ∧ errorLookup (some "9202") = "PLOC2D not aligned."
      ∧ errorLookup (some "9203") = "Job not valid."
      ∧ errorLookup (some "9400") = "Alignment failed."
      ∧ errorLookup (some "9401") = "Alignment target not found."
      ∧ errorLookup (some "9600") = "Locate failed."
      ∧ errorLookup (some "9601") = "Locate failed. Score too low."
      ∧ errorLookup (some "9999") = "An unknown error occured."
      ∧ errorLookup none = "")
    ∧ ∀ c : String,
        c ∉ ["9100", "9101", "9200", "9210", "9202", "9203", "9400", "9401",
             "9600", "9601", "9999"] →
        errorLookup (some c) = "" := by
  refine ⟨by decide, ?_⟩
  intro c hc
  simp only [List.mem_cons, List.not_mem_nil, or_false, not_or] at hc
  obtain ⟨h1, h2, h3, h4, h5, h6, h7, h8, h9, h10, h11⟩ := hc
  simp [errorLookup, ERROR_CODES, List.lookup,
    beq_eq_false_iff_ne.mpr h1, beq_eq_false_iff_ne.mpr h2,
    beq_eq_false_iff_ne.mpr h3, beq_eq_false_iff_ne.mpr h4,
    beq_eq_false_iff_ne.mpr h5, beq_eq_false_iff_ne.mpr h6,
    beq_eq_false_iff_ne.mpr h7, beq_eq_false_iff_ne.mpr h8,
    beq_eq_false_iff_ne.mpr h9, beq_eq_false_iff_ne.mpr h10,
    beq_eq_false_iff_ne.mpr h11]

/-- C3 witness: an unknown code resolves to the empty string. -/
theorem claim3_catalog_witness : errorLookup (some "1234") = "" :=
  claim3_catalog.2 "1234" (by decide)

/-- C4 counterexample: decoding a parseable reply with no fields yields a
Result whose `result_type` (a text field) is `None` — `data.get("name",
None)`, src/main.py:175 — not the empty string the claim requires for
absent text fields (`error_code` likewise stays `None` rather than a zero
value). -/
theorem claim4_counterexample :
    buildResult [] 1 0 = Except.ok
      { result_id := 0, timestamp := 0, result_type := none, error_code := none,
        error_text := "", job_id := 1, match_id := 0, «matches» := 0,
        x := 0, y := 0, z := 0, r1 := 0, r2 := 0, r3 := 0, scale := 0, score := 0,
        time := 0, exposure := 0, identified := 0 }
    ∧ (none : Option String) ≠ some "" := ⟨rfl, by decide⟩

/-- C4 (amended): for every parseable reply in which all fifteen known
tags are absent, decoding raises nothing and the numeric fields default to
zero (0 for the `int(...)` fields, 0.0 for the `float(...)` fields), the
error text defaults to `""` through the catalog lookup, and the
`result_type` and `error_code` fields default to the absent value `None`
(not the empty string). -/
theorem claim4_defaults (data : Dict) (job_id : Int) (now : Nat)
    (h : ∀ t ∈ ["name", "error", "match", "matches", "x", "y", "z", "r1", "r2",
                "r3", "scale", "score", "time", "exposure", "identified"],
         data.reverse.lookup t = none) :
    buildResult data job_id now = Except.ok
      { result_id := now, timestamp := now, result_type := none,
        error_code := none, error_text := "", job_id := job_id,
        match_id := 0, «matches» := 0, x := 0, y := 0, z := 0,
        r1 := 0, r2 := 0, r3 := 0, scale := 0, score := 0,
        time := 0, exposure := 0, identified := 0 } := by
  have hname := h "name" (by simp)
  have herror := h "error" (by simp)
  have hmatch := h "match" (by simp)
  have hmatches := h "matches" (by simp)
  have hx := h "x" (by simp)
  have hy := h "y" (by simp)
  have hz := h "z" (by simp)
  have hr1 := h "r1" (by simp)
  have hr2 := h "r2" (by simp)
  have hr3 := h "r3" (by simp)
  have hscale := h "scale" (by simp)
  have hscore := h "score" (by simp)
  have htime := h "time" (by simp)
  have hexposure := h "exposure" (by simp)
  have hidentified := h "identified" (by simp)
  simp [buildResult, pyGet, pyGetOpt, errorLookup, pyInt, pyFloat, bind_ok_eq,
    hname, herror, hmatch, hmatches, hx, hy, hz, hr1, hr2, hr3,
    hscale, hscore, htime, hexposure, hidentified]

/-- C4 witness: a reply carrying only an unknown tag decodes to the
all-defaults Result. -/
theorem claim4_defaults_witness :
    buildResult [("unknown", some "tag")] 9 4 = Except.ok
      { result_id := 4, timestamp := 4, result_type := none,
        error_code := none, error_text := "", job_id := 9,
        match_id := 0, «matches» := 0, x := 0, y := 0, z := 0,
        r1 := 0, r2 := 0, r3 := 0, scale := 0, score := 0,
        time := 0, exposure := 0, identified := 0 } :=
  claim4_defaults [("unknown", some "tag")] 9 4 (by decide)

/-- C2 counterexample: in the reply below every one of the fifteen fields
is populated, and `score` is `"87.5"`; the code stores the float 87.5
(`score = float(data.get("score", 0.0))`, src/main.py:188), while the
claim requires the integer conversion for `score` (an integer field of
`Result` per its declaration), which does not even exist for this value
(`int("87.5")` raises `ValueError`, here `strToInt "87.5" = none`). -/
theorem claim2_counterexample :
    run_job { ip_address := "10.78.1.156", connection := some 0 } 1 none false false
        (Bytes.wellFormed
          [("name", some "Run.Locate.Ok"), ("error", some "9601"),
           ("match", some "1"), ("matches", some "1"), ("x", some "0"),
           ("y", some "0"), ("z", some "0"), ("r1", some "0"), ("r2", some "0"),
           ("r3", some "0"), ("scale", some "1"), ("score", some "87.5"),
           ("time", some "0"), ("exposure", some "0"), ("identified", some "1")]) 0
      = ({ ip_address := "10.78.1.156", connection := some 0 },
         RunOutcome.ret (some
          { result_id := 0, timestamp := 0, result_type := some "Run.Locate.Ok",
            error_code := some "9601", error_text := "Locate failed. Score too low.",
            job_id := 1, match_id := 1, «matches» := 1, x := 0, y := 0, z := 0,
            r1 := 0, r2 := 0, r3 := 0, scale := 1, score := mkRat 175 2,
            time := 0, exposure := 0, identified := 1 }))
    ∧ strToInt "87.5" = none := by
  constructor
  · decide
  · rfl

/-- C2 (amended): for every syntactically valid reply in which all fifteen
fields are populated with convertible texts, `run_job` on a connected
session returns a Result whose fields exactly equal the reply values after
type conversion — integers for `match`, `matches`, `time`, `exposure`,
`identified`; floats for `x`, `y`, `z`, `r1`, `r2`, `r3`, `scale` and also
for `score`; the raw strings for `name` and `error`; and the error text
resolved through the catalog. -/
theorem claim2_roundtrip_floats (s : Session) (c : Nat) (h : s.connection = some c)
    (job_id : Int) (match_id : Option Int) (now : Nat)
    (nm er sm sms sx sy sz sr1 sr2 sr3 ssc ssco st sexp sid : String)
    (vm vms vt vexp vid : Int) (qx qy qz qr1 qr2 qr3 qsc qsco : Rat)
    (hm : strToInt sm = some vm) (hms : strToInt sms = some vms)
    (hx : strToRat sx = some qx) (hy : strToRat sy = some qy)
    (hz : strToRat sz = some qz) (hr1 : strToRat sr1 = some qr1)
    (hr2 : strToRat sr2 = some qr2) (hr3 : strToRat sr3 = some qr3)
    (hsc : strToRat ssc = some qsc) (hsco : strToRat ssco = some qsco)
    (ht : strToInt st = some vt) (hexp : strToInt sexp = some vexp)
    (hid : strToInt sid = some vid) :
    run_job s job_id match_id false false
      (Bytes.wellFormed
        [("name", some nm), ("error", some er), ("match", some sm),
         ("matches", some sms), ("x", some sx), ("y", some sy), ("z", some sz),
         ("r1", some sr1), ("r2", some sr2), ("r3", some sr3),
         ("scale", some ssc), ("score", some ssco), ("time", some st),
         ("exposure", some sexp), ("identified", some sid)]) now
      = (s, RunOutcome.ret (some
          { result_id := now, timestamp := now, result_type := some nm,
            error_code := some er, error_text := errorLookup (some er),
            job_id := job_id, match_id := vm, «matches» := vms,
            x := qx, y := qy, z := qz, r1 := qr1, r2 := qr2, r3 := qr3,
            scale := qsc, score := qsco, time := vt, exposure := vexp,
            identified := vid })) := by
  simp [run_job, h, fromstring, buildResult, pyGet, pyGetOpt, pyInt, pyFloat, bind_ok_eq,
    List.lookup, hm, hms, hx, hy, hz, hr1, hr2, hr3, hsc, hsco, ht, hexp, hid]

/-- C2 witness: a fully populated synthetic "Ok" reply round-trips into
the corresponding converted Result. -/
theorem claim2_roundtrip_floats_witness :
    run_job { ip_address := "10.78.1.156", connection := some 0 } 1 none false false
      (Bytes.wellFormed
        [("name", some "Run.Locate.Ok"), ("error", some "9601"), ("match", some "2"),
         ("matches", some "3"), ("x", some "23.5"), ("y", some "-1.25"),
         ("z", some "0"), ("r1", some "0.5"), ("r2", some "1"), ("r3", some "180.0"),
         ("scale", some "1.0"), ("score", some "87.5"), ("time", some "12"),
         ("exposure", some "8000"), ("identified", some "1")]) 5
      = ({ ip_address := "10.78.1.156", connection := some 0 },
         RunOutcome.ret (some
          { result_id := 5, timestamp := 5, result_type := some "Run.Locate.Ok",
            error_code := some "9601", error_text := errorLookup (some "9601"),
            job_id := 1, match_id := 2, «matches» := 3,
            x := mkRat 47 2, y := mkRat (-5) 4, z := 0, r1 := mkRat 1 2,
            r2 := 1, r3 := 180, scale := 1, score := mkRat 175 2,
            time := 12, exposure := 8000, identified := 1 })) :=
  claim2_roundtrip_floats { ip_address := "10.78.1.156", connection := some 0 } 0 rfl
    1 none 5
    "Run.Locate.Ok" "9601" "2" "3" "23.5" "-1.25" "0" "0.5" "1" "180.0" "1.0" "87.5"
    "12" "8000" "1" 2 3 12 8000 1 (mkRat 47 2) (mkRat (-5) 4) 0 (mkRat 1 2) 1 180 1
    (mkRat 175 2)
    (by decide) (by decide) (by decide) (by decide) (by decide) (by decide)
    (by decide) (by decide) (by decide) (by decide) (by decide) (by decide) (by decide)

/-- C5 counterexample: `run_job` on a session that was never connected
returns `None` normally — no exception is raised (the repository defines
no `NotConnectedError`; `_send` and `_recv` silently return when
`self._connection is None`, src/main.py:213-221). -/
theorem claim5_counterexample :
    run_job { ip_address := "10.78.1.156" } 1 none false false
        (Bytes.wellFormed [("name", some "Run.Locate.Ok")]) 0
      = ({ ip_address := "10.78.1.156" }, RunOutcome.ret none) := rfl

/-- C5 (amended): for every job id and optional match id, calling
`run_job` on a session whose connection is not open (never connected, or
after `disconnect`) returns `None` without raising; no `NotConnectedError`
exists in the code. -/
theorem claim5_not_connected_returns_none (s : Session) (h : s.connection = none)
    (job_id : Int) (match_id : Option Int) (sendFails recvTimesOut : Bool)
    (wire : Bytes) (now : Nat) :
    run_job s job_id match_id sendFails recvTimesOut wire now
      = (s, RunOutcome.ret none) := by
  simp [run_job, h]

/-- C5 witness. -/
theorem claim5_not_connected_returns_none_witness :
    run_job { ip_address := "10.78.1.156" } 2 (some 1) true true
        (Bytes.malformed "") 7
      = ({ ip_address := "10.78.1.156" }, RunOutcome.ret none) :=
  claim5_not_connected_returns_none { ip_address := "10.78.1.156" } rfl
    2 (some 1) true true (Bytes.malformed "") 7

/-- C6 counterexample: on a connected session, an empty byte reply
(`b""`) is not `None`, so the `response is None` guard does not fire and
`ET.fromstring(b"")` raises `ParseError`: `run_job` raises instead of
yielding no result. -/
theorem claim6_counterexample :
    run_job { ip_address := "10.78.1.156", connection := some 0 } 1 none false false
        (Bytes.malformed "") 0
      = ({ ip_address := "10.78.1.156", connection := some 0 },
         RunOutcome.raised RunError.parseError) := rfl

/-- C6 (amended): the receive step yields no data object (`None`) exactly
when the connection is not open, and then `run_job` returns an absent
value; a reply that is empty or otherwise unparseable (such as the empty
byte string) is not `None` and makes `run_job` raise a parse error
instead. -/
theorem claim6_reply_handling (s t : Session) (c : Nat)
    (h1 : s.connection = none) (h2 : t.connection = some c)
    (job_id : Int) (match_id : Option Int) (wire : Bytes) (raw : String) (now : Nat) :
    run_job s job_id match_id false false wire now = (s, RunOutcome.ret none)
      ∧ run_job t job_id match_id false false (Bytes.malformed raw) now
        = (t, RunOutcome.raised RunError.parseError) := by
  constructor
  · simp [run_job, h1]
  · simp [run_job, h2, fromstring]

/-- C6 witness. -/
theorem claim6_reply_handling_witness :
    run_job { ip_address := "10.78.1.156" } 1 none false false
        (Bytes.malformed "x") 3
      = ({ ip_address := "10.78.1.156" }, RunOutcome.ret none)
    ∧ run_job { ip_address := "10.78.1.156", connection := some 7 } 1 none false false
        (Bytes.malformed "x") 3
      = ({ ip_address := "10.78.1.156", connection := some 7 },
         RunOutcome.raised RunError.parseError) :=
  claim6_reply_handling { ip_address := "10.78.1.156" }
    { ip_address := "10.78.1.156", connection := some 7 } 7 rfl rfl
    1 none (Bytes.malformed "x") "x" 3

/-- C7: `connect()` on an already-connected session is a no-op: the state
(in particular the connection handle) is unchanged, no fresh socket object
enters the state, and no error is raised (it returns `None`). -/
theorem claim7_connect_idempotent (s : Session) (c : Nat)
    (h : s.connection = some c) (fresh : Nat) (connectSucceeds : Bool) :
    connect s fresh connectSucceeds = ConnectOutcome.returned s PyRet.pyNone := by
  simp [connect, h]

/-- C7 witness. -/
theorem claim7_connect_idempotent_witness :
    connect { ip_address := "10.78.1.156", connection := some 0 } 1 true
      = ConnectOutcome.returned
          { ip_address := "10.78.1.156", connection := some 0 } PyRet.pyNone :=
  claim7_connect_idempotent { ip_address := "10.78.1.156", connection := some 0 }
    0 rfl 1 true

/-- C8 counterexample: `connect()` on an already-connected session takes
the early `return` (src/main.py:130-131), which returns `None`, not the
session itself — so it does not return a handle to the session "in every
case in which it does not raise". -/
theorem claim8_counterexample :
    connect { ip_address := "10.78.1.156", connection := some 0 } 1 true
      = ConnectOutcome.returned
          { ip_address := "10.78.1.156", connection := some 0 } PyRet.pyNone
    ∧ PyRet.pyNone ≠ PyRet.selfRef := ⟨rfl, by decide⟩

/-- C8 (amended): `connect()` returns a handle to the session itself
whenever it actually opens a new connection (session not yet connected and
the socket connect succeeds); when the session is already connected it
returns `None` instead. -/
theorem claim8_connect_returns_self (s : Session) (h : s.connection = none)
    (fresh : Nat) :
    connect s fresh true
      = ConnectOutcome.returned { s with connection := some fresh } PyRet.selfRef := by
  simp [connect, h]

/-- C8 witness. -/
theorem claim8_connect_returns_self_witness :
    connect { ip_address := "10.78.1.156" } 5 true
      = ConnectOutcome.returned
          { ip_address := "10.78.1.156", connection := some 5 } PyRet.selfRef :=
  claim8_connect_returns_self { ip_address := "10.78.1.156" } rfl 5

/-- C9 counterexample: on a connected session whose underlying
`socket.close()` fails, `disconnect()` propagates the exception and the
connection handle is still set afterwards (the method has no try/except
and assigns `None` only after `close()` returns, src/main.py:137-141) —
so `disconnect()` can raise, and does not release the handle
unconditionally. -/
theorem claim9_counterexample :
    disconnect { ip_address := "10.78.1.156", connection := some 0 } true
      = DisconnectOutcome.raised
          { ip_address := "10.78.1.156", connection := some 0 } := rfl

/-- C9 (amended): `disconnect()` on a session that was never connected (or
already disconnected) is a no-op and never raises, whatever the close
oracle says; on a connected session whose close succeeds it releases the
connection handle; a failing close propagates (see the counterexample). -/
theorem claim9_disconnect (s t : Session) (c : Nat) (closeFails : Bool)
    (h1 : s.connection = none) (h2 : t.connection = some c) :
    disconnect s closeFails = DisconnectOutcome.returned s
      ∧ disconnect t false = DisconnectOutcome.returned { t with connection := none } := by
  constructor
  · simp [disconnect, h1]
  · simp [disconnect, h2]

/-- C9 witness. -/
theorem claim9_disconnect_witness :
    disconnect { ip_address := "10.78.1.156" } true
      = DisconnectOutcome.returned { ip_address := "10.78.1.156" }
    ∧ disconnect { ip_address := "10.78.1.156", connection := some 3 } false
      = DisconnectOutcome.returned { ip_address := "10.78.1.156" } :=
  claim9_disconnect { ip_address := "10.78.1.156" }
    { ip_address := "10.78.1.156", connection := some 3 } 3 true rfl rfl

/-- C10: `run_job` never mutates the session: for every call — whatever
the oracles do (send failure, receive timeout, malformed or error-carrying
replies) — the session state after the call, including address, timeout,
encoding, buffer size and the connection handle, equals the state before;
in particular no failure forces the session into the disconnected state. -/
theorem claim10_run_job_frame (s : Session) (job_id : Int) (match_id : Option Int)
    (sendFails recvTimesOut : Bool) (wire : Bytes) (now : Nat) :
    (run_job s job_id match_id sendFails recvTimesOut wire now).1 = s := by
  unfold run_job
  repeat' split
  all_goals rfl

end PLOC2D
